import Mathlib

/-!
Shallow embedding of the gopayloader load generator's worker and config
packages, with theorems about configuration validation, worker-mode
derivation, the fixed-request worker loop, client construction, and the
package-level request pool.

External effects (the Go standard library's `url.ParseRequestURI`,
`os.OpenFile`, `json.Unmarshal`, `tls.LoadX509KeyPair`, and
`http2.ConfigureClient`) are modelled as oracles gathered in an `Env`
record; everything in the repository's own code is translated directly.
-/

namespace Gopayloader

/-- Result of the `os.OpenFile(path, O_RDONLY, ...)` probe used by
`Config.Validate`: the file opens, it does not exist (`os.IsNotExist`),
or some other stat error occurs. -/
inductive FStat where
  | ok
  | notExist
  | otherErr
deriving DecidableEq, Repr

/-- Oracles for the external (standard-library / third-party) calls the
repository makes.  `parseOK s` is whether `url.ParseRequestURI s`
succeeds, `parseHost`/`parseScheme` are the host and scheme fields of
the parsed URL, `loadKeyPairOK` is whether `tls.LoadX509KeyPair`
succeeds, `http2OK` is whether `http2.ConfigureClient` succeeds,
`fileStat` is the `os.OpenFile` probe and `jsonOK` is whether
`json.Unmarshal` accepts the custom-claims string. -/
structure Env where
  parseOK : String → Bool
  parseHost : String → String
  parseScheme : String → String
  loadKeyPairOK : String → String → Bool
  http2OK : Bool
  fileStat : String → FStat
  jsonOK : String → Bool

/-- Two's-complement conversion `int64(u)` of a Go `uint` (64-bit) value,
as performed on `c.Conns` in `Config.Validate`. -/
def int64OfUint64 (n : Nat) : Int :=
  let m : Nat := n % 2 ^ 64
  if m < 2 ^ 63 then (m : Int) else (m : Int) - 2 ^ 64

/-- List-prefix test used by the regular-expression model (`p` is
checked to be a prefix of `l`). -/
def listStarts : List Char → List Char → Bool
  | [], _ => true
  | _ :: _, [] => false
  | p :: ps, c :: cs => p == c && listStarts ps cs

/-- Does the list begin with a colon followed by a decimal digit?  This
is the entry point of the `(?::\d+)` group of the source regex: a match
of the group at the current position needs a `:` and at least one digit. -/
def portAfter (l : List Char) : Bool :=
  match l with
  | ':' :: d :: _ => d.isDigit
  | _ => false

/-- Match of `(.)*(?::\d+)` starting at the head of the list.  In RE2,
`.` matches any character except a newline, so the `(.)*` segment may
consume any non-newline characters before the mandatory `:digits`. -/
def afterScheme : List Char → Bool
  | [] => false
  | c :: rest => portAfter (c :: rest) || (c != '\n' && afterScheme rest)

/-- Match of the full source pattern `https?:\/\/(.)*(?::\d+)` anchored
at the head of the list. -/
def matchFrom (l : List Char) : Bool :=
  (listStarts "http://".data l && afterScheme (l.drop 7)) ||
  (listStarts "https://".data l && afterScheme (l.drop 8))

/-- Unanchored search for the source pattern, i.e. `MatchString`
semantics: the pattern may match starting at any position. -/
def reSearch : List Char → Bool
  | [] => false
  | c :: rest => matchFrom (c :: rest) || reSearch rest

/-- Model of `regExHostURI.MatchString s` for the compiled source regex
`https?:\/\/(.)*(?::\d+)`. -/
def uriRegexMatch (s : String) : Bool :=
  reSearch s.data

/-- Head of the list exists and is not a slash: the `[^/]+` segment of
the specification's pattern needs at least one non-slash character. -/
def headNonSlash (l : List Char) : Bool :=
  match l with
  | c :: _ => c != '/'
  | [] => false

/-- Modelled from the spec: the specification's URI pattern
`^https?://[^/]+(:\d+)?`, used only to compare the spec's wording with
the source regex.  Since the pattern is anchored at the start and the
trailing port group is optional, a string matches iff it begins with
`http://` or `https://` followed by at least one non-slash character. -/
def specURIPattern (s : String) : Bool :=
  (listStarts "http://".data s.data && headNonSlash (s.data.drop 7)) ||
  (listStarts "https://".data s.data && headNonSlash (s.data.drop 8))

/-- The `config.Config` struct of the repository (the `Ctx` field, a Go
context handle, carries no data relevant to validation and is omitted).
Durations are int64 nanosecond counts; `Conns` is a Go `uint`. -/
structure GConfig where
  ReqURI : String
  DisableKeepAlive : Bool
  ReqTarget : Int
  Conns : Nat
  Duration : Int
  MTLSKey : String
  MTLSCert : String
  SkipVerify : Bool
  ReadTimeout : Int
  WriteTimeout : Int
  Method : String
  Verbose : Bool
  VerboseTicker : Int
  JwtKID : String
  JwtKey : String
  JwtSub : String
  JwtCustomClaimsJSON : String
  JwtIss : String
  JwtAud : String
  JwtHeader : String
  JwtsFilename : String
  SendJWT : Bool
  Headers : List String
  Body : String
  BodyFile : String
  Client : String

/-- The distinct error returns of `Config.Validate`, one constructor per
`return` site (the two identical "can only send jwts when request number
is specified" messages share the constructor `jwtZeroReqs`). -/
inductive VErr where
  | invalidURI
  | connLimit
  | zeroConns
  | badURIFormat
  | mtlsKeyNotExist
  | mtlsKeyStatErr
  | mtlsCertNotExist
  | mtlsCertStatErr
  | emptyJwtHeader
  | emptyJwtSource
  | jwtKeyNotExist
  | jwtKeyStatErr
  | jwtZeroReqs
  | jwtFileNotExist
  | jwtFileStatErr
  | headerNoColon
  | bodyFileNotExist
  | bodyFileStatErr
  | zeroTicker
  | methodNotAllowed
  | zeroWriteTimeout
  | zeroReadTimeout
  | zeroTargets
  | badJwtClaims
deriving DecidableEq, Repr

/-- The `allowedMethods` array of the config package. -/
def allowedMethods : List String := ["GET", "PUT", "POST", "DELETE"]

/-- The `methodAllowed` helper: linear scan of `allowedMethods`. -/
def methodAllowed (method : String) : Bool :=
  allowedMethods.contains method

/-- Checks of `Config.Validate` preceding the JWT section, in source
order: URI parse, the two connection-limit checks, zero connections, the
host regex, and the two mTLS file probes.  None of these mutate the
config. -/
def checksBeforeJwt (env : Env) (c : GConfig) : Option VErr :=
  if env.parseOK c.ReqURI = false then some .invalidURI
  else if int64OfUint64 c.Conns > c.ReqTarget ∧ c.Duration = 0 then some .connLimit
  else if int64OfUint64 c.Conns > c.ReqTarget ∧ c.ReqTarget ≠ 0 ∧ c.Duration ≠ 0 then
    some .connLimit
  else if c.Conns = 0 then some .zeroConns
  else if uriRegexMatch c.ReqURI = false then some .badURIFormat
  else if c.MTLSKey ≠ "" ∧ env.fileStat c.MTLSKey = .notExist then some .mtlsKeyNotExist
  else if c.MTLSKey ≠ "" ∧ env.fileStat c.MTLSKey = .otherErr then some .mtlsKeyStatErr
  else if c.MTLSCert ≠ "" ∧ env.fileStat c.MTLSCert = .notExist then some .mtlsCertNotExist
  else if c.MTLSCert ≠ "" ∧ env.fileStat c.MTLSCert = .otherErr then some .mtlsCertStatErr
  else none

/-- The `JwtsFilename` block of `Config.Validate`: probe the file, then
require a nonzero request target, then set `SendJWT`.  Takes and returns
the (possibly already mutated) config. -/
def jwtFileCheck (env : Env) (c : GConfig) : Option VErr × GConfig :=
  if c.JwtsFilename ≠ "" then
    if env.fileStat c.JwtsFilename = .notExist then (some .jwtFileNotExist, c)
    else if env.fileStat c.JwtsFilename = .otherErr then (some .jwtFileStatErr, c)
    else if c.ReqTarget = 0 then (some .jwtZeroReqs, c)
    else (none, { c with SendJWT := true })
  else (none, c)

/-- The JWT section of `Config.Validate`: header/source presence checks,
then the `JwtKey` block (probe, nonzero target, set `SendJWT`), then the
`JwtsFilename` block.  The `SendJWT` mutation persists even when a later
check fails, exactly as in the Go code, which mutates through the
pointer receiver before returning the error. -/
def jwtChecks (env : Env) (c : GConfig) : Option VErr × GConfig :=
  if (c.JwtsFilename ≠ "" ∨ c.JwtKey ≠ "") ∧ c.JwtHeader = "" then (some .emptyJwtHeader, c)
  else if c.JwtHeader ≠ "" ∧ c.JwtsFilename = "" ∧ c.JwtKey = "" then (some .emptyJwtSource, c)
  else if c.JwtKey ≠ "" then
    if env.fileStat c.JwtKey = .notExist then (some .jwtKeyNotExist, c)
    else if env.fileStat c.JwtKey = .otherErr then (some .jwtKeyStatErr, c)
    else if c.ReqTarget = 0 then (some .jwtZeroReqs, c)
    else jwtFileCheck env { c with SendJWT := true }
  else jwtFileCheck env c

/-- Checks of `Config.Validate` following the JWT section, in source
order: header colon check, body-file probe, verbose ticker, method,
write timeout, read timeout, the zero-budget check, and the custom-claims
JSON parse.  None of these mutate the config. -/
def checksAfterJwt (env : Env) (c : GConfig) : Option VErr :=
  if c.Headers.any (fun h => !h.data.contains ':') then some .headerNoColon
  else if c.BodyFile.length > 0 ∧ env.fileStat c.BodyFile = .notExist then
    some .bodyFileNotExist
  else if c.BodyFile.length > 0 ∧ env.fileStat c.BodyFile = .otherErr then
    some .bodyFileStatErr
  else if c.VerboseTicker = 0 then some .zeroTicker
  else if methodAllowed c.Method = false then some .methodNotAllowed
  else if c.WriteTimeout = 0 then some .zeroWriteTimeout
  else if c.ReadTimeout = 0 then some .zeroReadTimeout
  else if c.ReqTarget = 0 ∧ c.Duration = 0 then some .zeroTargets
  else if c.JwtCustomClaimsJSON ≠ "" ∧ env.jsonOK c.JwtCustomClaimsJSON = false then
    some .badJwtClaims
  else none

/-- Embedding of `Config.Validate` (config package).  Returns the error,
if any, together with the post-call config, since the Go method mutates
`SendJWT` through its pointer receiver. -/
def goValidate (env : Env) (c : GConfig) : Option VErr × GConfig :=
  match checksBeforeJwt env c with
  | some e => (some e, c)
  | none =>
    match jwtChecks env c with
    | (some e, c1) => (some e, c1)
    | (none, c1) =>
      match checksAfterJwt env c1 with
      | some e => (some e, c1)
      | none => (none, c1)

/-- The `worker.Config` struct of the repository (the `Ctx` and
`StartTrigger` fields are concurrency handles; the cancellation context
is modelled in the run loop as a poll oracle, and the start barrier has
no effect on counts). -/
structure WConfig where
  ReqURI : String
  DisableKeepAlive : Bool
  SkipVerify : Bool
  MTLSKey : String
  MTLSCert : String
  Reqs : Int
  Until : Int
  ReqEvery : Int
  ReadTimeout : Int
  WriteTimeout : Int
  Method : String
  Verbose : Bool
  HTTPV2 : Bool

/-- The `TimeLimited` method of `worker.Config`. -/
def WConfig.TimeLimited (c : WConfig) : Bool :=
  c.Until != 0

/-- The `UnlimitedReqs` method of `worker.Config`. -/
def WConfig.UnlimitedReqs (c : WConfig) : Bool :=
  c.Until != 0 && c.Reqs == 0

/-- The error returns of `getClient`: certificate-pair load failure, URI
parse failure, or `http2.ConfigureClient` failure. -/
inductive GErr where
  | loadCert
  | parseURI
  | http2Config
deriving DecidableEq, Repr

/-- The observable fields of the `fasthttp.HostClient` built by
`getClient`: address and TLS flag from the parsed URL, the fixed
`MaxConns = 1`, the timeouts, header-normalizing flag, and the TLS
material (skip-verify and whether a client certificate was attached). -/
structure HostClient where
  addr : String
  isTLS : Bool
  maxConns : Nat
  readTimeout : Int
  writeTimeout : Int
  disableHeaderNamesNormalizing : Bool
  skipVerify : Bool
  hasClientCert : Bool
  http2Configured : Bool
deriving DecidableEq, Repr

/-- The `fasthttp.HostClient` literal built inside `getClient`, before
the optional HTTP/2 configuration. -/
def builtClient (env : Env) (c : WConfig) : HostClient :=
  { addr := env.parseHost c.ReqURI
    isTLS := env.parseScheme c.ReqURI = "https"
    maxConns := 1
    readTimeout := c.ReadTimeout
    writeTimeout := c.WriteTimeout
    disableHeaderNamesNormalizing := true
    skipVerify := c.SkipVerify
    hasClientCert := c.MTLSCert ≠ "" ∧ c.MTLSKey ≠ ""
    http2Configured := false }

/-- Embedding of `getClient` (worker package): build the TLS config,
load the client certificate pair only when both paths are non-empty,
parse the request URI, build the host client, and optionally configure
HTTP/2. -/
def getClient (env : Env) (c : WConfig) : Except GErr HostClient :=
  if c.MTLSCert ≠ "" ∧ c.MTLSKey ≠ "" ∧ env.loadKeyPairOK c.MTLSCert c.MTLSKey = false then
    .error .loadCert
  else if env.parseOK c.ReqURI = false then .error .parseURI
  else if c.HTTPV2 = false then .ok (builtClient env c)
  else if env.http2OK then .ok { builtClient env c with http2Configured := true }
  else .error .http2Config

/-- The three worker variants returned by `NewWorker`. -/
inductive WorkerKind where
  | fixedReqs
  | fixedTime
  | fixedTimeRequests
deriving DecidableEq, Repr

/-- The request template captured by the `requestPool`'s `New` closure:
the request URI, the stored method (set only when the configured method
differs from the default `GET`), and whether a `Connection: close`
header was added. -/
structure Template where
  uri : String
  method : String
  connClose : Bool
deriving DecidableEq, Repr

/-- The template the `requestPool` closure builds from a config: a fresh
`fasthttp.Request` holds method `GET` by default; `SetMethodBytes` runs
only when `config.Method != "GET"`; the `Connection: close` header is
added when keep-alive is disabled. -/
def templateOf (c : WConfig) : Template :=
  { uri := c.ReqURI
    method := if c.Method ≠ "GET" then c.Method else "GET"
    connClose := c.DisableKeepAlive }

/-- The package-level pool variables of the worker package:
`responsePool` carries no config data, `requestPool` carries the
captured request template (`none` models the Go `nil`). -/
structure Pools where
  responseInit : Bool
  request : Option Template
deriving DecidableEq, Repr

/-- Embedding of `NewWorker`: build the client (returning its error on
failure, before any pool initialization), initialize each package-level
pool only if it is still nil, and pick the worker variant from
`TimeLimited` and `UnlimitedReqs`.  Returns the new pool state together
with the result. -/
def newWorkerStep (env : Env) (ps : Pools) (c : WConfig) :
    Pools × Except GErr WorkerKind :=
  match getClient env c with
  | .error e => (ps, .error e)
  | .ok _ =>
    let ps1 : Pools :=
      { responseInit := true
        request := match ps.request with
          | none => some (templateOf c)
          | some t => some t }
    if c.TimeLimited = false then (ps1, .ok .fixedReqs)
    else if c.UnlimitedReqs then (ps1, .ok .fixedTime)
    else (ps1, .ok .fixedTimeRequests)

/-- The fields of the `http-clients` package `Config` read by
`GetNetHTTPClient` (that struct's definition is outside the provided
sources; the fields are exactly those the provided source dereferences). -/
structure HConfig where
  SkipVerify : Bool
  MTLSCert : String
  MTLSKey : String
  ReadTimeout : Int
  WriteTimeout : Int

/-- The observable fields of the `net/http` client built by
`GetNetHTTPClient`: TLS material and the overall timeout
`ReadTimeout + WriteTimeout`. -/
structure NHClient where
  skipVerify : Bool
  hasClientCert : Bool
  timeout : Int
deriving DecidableEq, Repr

/-- Embedding of `GetNetHTTPClient` (nethttp package): load the client
certificate pair only when both paths are non-empty, then build the
client. -/
def getNetHTTPClient (env : Env) (c : HConfig) : Except GErr NHClient :=
  if c.MTLSCert ≠ "" ∧ c.MTLSKey ≠ "" ∧ env.loadKeyPairOK c.MTLSCert c.MTLSKey = false then
    .error .loadCert
  else
    .ok { skipVerify := c.SkipVerify
          hasClientCert := c.MTLSCert ≠ "" ∧ c.MTLSKey ≠ ""
          timeout := c.ReadTimeout + c.WriteTimeout }

/-- Observable outcome of one request loop: completed and failed counts
(Modelled from the spec: the `w.run()` body, `WorkerBase.run`, is not
among the provided sources; per §4.4 of the spec, step (g), a successful
send increments the completed count and a failed send the failed count),
the next poll index, and whether the loop exited through the
cancellation branch. -/
structure LoopOut where
  completed : Nat
  failed : Nat
  next : Nat
  cancelled : Bool
deriving DecidableEq, Repr

/-- One `for i = 0; i < reqs; i++` loop of `WorkerFixedReqs.Run` over
`n` iterations starting at poll index `t`: each iteration polls the
cancellation context (`done`) once via the non-blocking `select` and
returns from the whole function if it is done, otherwise performs one
`w.run()` whose success is given by the oracle `succ`. -/
def runLoop (done succ : Nat → Bool) : Nat → Nat → LoopOut
  | t, 0 => ⟨0, 0, t, false⟩
  | t, n + 1 =>
    if done t then ⟨0, 0, t, true⟩
    else
      let r := runLoop done succ (t + 1) n
      if succ t then ⟨r.completed + 1, r.failed, r.next, r.cancelled⟩
      else ⟨r.completed, r.failed + 1, r.next, r.cancelled⟩

/-- Embedding of `WorkerFixedReqs.Run`: when `Verbose` is set, the
verbose loop runs first (a cancellation inside it returns from the whole
function); the non-verbose loop then runs unconditionally.  The loop
bound `i < reqs` over int64 `i` starting at 0 yields `reqs.toNat`
iterations. -/
def workerFixedReqsRun (c : WConfig) (done succ : Nat → Bool) (t0 : Nat) : LoopOut :=
  let n := c.Reqs.toNat
  if c.Verbose then
    let r1 := runLoop done succ t0 n
    if r1.cancelled then r1
    else
      let r2 := runLoop done succ r1.next n
      ⟨r1.completed + r2.completed, r1.failed + r2.failed, r2.next, r2.cancelled⟩
  else runLoop done succ t0 n

/-- The errors produced by the checks preceding the JWT section of
`Config.Validate`. -/
def beforeErrs : List VErr :=
  [.invalidURI, .connLimit, .zeroConns, .badURIFormat,
   .mtlsKeyNotExist, .mtlsKeyStatErr, .mtlsCertNotExist, .mtlsCertStatErr]

/-- The errors produced by the JWT section of `Config.Validate`
(token-header and token-source rules). -/
def tokenErrs : List VErr :=
  [.emptyJwtHeader, .emptyJwtSource, .jwtKeyNotExist, .jwtKeyStatErr,
   .jwtZeroReqs, .jwtFileNotExist, .jwtFileStatErr]

/-- The errors produced by the checks following the JWT section of
`Config.Validate`. -/
def afterErrs : List VErr :=
  [.headerNoColon, .bodyFileNotExist, .bodyFileStatErr, .zeroTicker,
   .methodNotAllowed, .zeroWriteTimeout, .zeroReadTimeout, .zeroTargets,
   .badJwtClaims]

/-- Characterization used in the statement of the frame theorem for
`Config.Validate`: the condition under which the Go code executes
`c.SendJWT = true` — all checks before the JWT section pass, the token
header is set, and one of the two token-source blocks runs through its
guards (key file or jwt file exists and the request target is nonzero). -/
def setsSendJWT (env : Env) (c : GConfig) : Prop :=
  checksBeforeJwt env c = none ∧ c.JwtHeader ≠ "" ∧
    ((c.JwtKey ≠ "" ∧ env.fileStat c.JwtKey = .ok ∧ c.ReqTarget ≠ 0) ∨
     (c.JwtKey = "" ∧ c.JwtsFilename ≠ "" ∧ env.fileStat c.JwtsFilename = .ok ∧
       c.ReqTarget ≠ 0))

instance (env : Env) (c : GConfig) : Decidable (setsSendJWT env c) := by
  unfold setsSendJWT
  infer_instance

/-- Fully permissive oracle environment: every external call succeeds
and every probed file exists. -/
def envAll : Env :=
  { parseOK := fun _ => true
    parseHost := fun _ => ""
    parseScheme := fun _ => ""
    loadKeyPairOK := fun _ _ => true
    http2OK := true
    fileStat := fun _ => .ok
    jsonOK := fun _ => true }

/-- Baseline valid config-package config used by concrete witnesses. -/
def cBase : GConfig :=
  { ReqURI := "http://localhost:8080/x"
    DisableKeepAlive := false
    ReqTarget := 5
    Conns := 1
    Duration := 0
    MTLSKey := ""
    MTLSCert := ""
    SkipVerify := false
    ReadTimeout := 1
    WriteTimeout := 1
    Method := "GET"
    Verbose := false
    VerboseTicker := 1
    JwtKID := ""
    JwtKey := ""
    JwtSub := ""
    JwtCustomClaimsJSON := ""
    JwtIss := ""
    JwtAud := ""
    JwtHeader := ""
    JwtsFilename := ""
    SendJWT := false
    Headers := []
    Body := ""
    BodyFile := ""
    Client := "" }

/-- Baseline worker-package config used by concrete witnesses. -/
def wBase : WConfig :=
  { ReqURI := "http://localhost:8080/x"
    DisableKeepAlive := false
    SkipVerify := false
    MTLSKey := ""
    MTLSCert := ""
    Reqs := 5
    Until := 0
    ReqEvery := 0
    ReadTimeout := 1
    WriteTimeout := 1
    Method := "GET"
    Verbose := false
    HTTPV2 := false }

/-- A run loop that is never cancelled does not take the cancellation
exit, performs exactly its bound's worth of requests (completed plus
failed), and advances the poll index by its bound. -/
lemma runLoop_spec (done succ : Nat → Bool) (h : ∀ t, done t = false) :
    ∀ (n t : Nat), (runLoop done succ t n).cancelled = false ∧
      (runLoop done succ t n).completed + (runLoop done succ t n).failed = n ∧
      (runLoop done succ t n).next = t + n := by
  intro n
  induction n with
  | zero => intro t; simp [runLoop]
  | succ n ih =>
    intro t
    obtain ⟨h1, h2, h3⟩ := ih (t + 1)
    cases hs : succ t with
    | true =>
      simp only [runLoop, h t, if_false, hs, if_true, Bool.false_eq_true]
      exact ⟨h1, by omega, by omega⟩
    | false =>
      simp only [runLoop, h t, if_false, hs, Bool.false_eq_true]
      exact ⟨h1, by omega, by omega⟩

/-- With no cancellation and every send succeeding, a run loop completes
exactly its bound's worth of requests and fails none. -/
lemma runLoop_all_success (done succ : Nat → Bool) (h : ∀ t, done t = false)
    (hs : ∀ t, succ t = true) :
    ∀ (n t : Nat), (runLoop done succ t n).completed = n ∧
      (runLoop done succ t n).failed = 0 := by
  intro n
  induction n with
  | zero => intro t; simp [runLoop]
  | succ n ih =>
    intro t
    obtain ⟨h1, h2⟩ := ih (t + 1)
    simp only [runLoop, h t, if_false, hs t, if_true, Bool.false_eq_true]
    exact ⟨by omega, h2⟩

/-- With `Verbose` unset, `WorkerFixedReqs.Run` is exactly one pass of
the request loop. -/
lemma workerFixedReqsRun_nonverbose (c : WConfig) (hv : c.Verbose = false)
    (done succ : Nat → Bool) (t0 : Nat) :
    workerFixedReqsRun c done succ t0 = runLoop done succ t0 c.Reqs.toNat := by
  simp [workerFixedReqsRun, hv]


/-- Validation succeeds exactly when all three sections of
`Config.Validate` report no error. -/
lemma goValidate_fst_none (env : Env) (c : GConfig) :
    (goValidate env c).1 = none ↔
      (checksBeforeJwt env c = none ∧ (jwtChecks env c).1 = none ∧
        checksAfterJwt env (jwtChecks env c).2 = none) := by
  unfold goValidate
  rcases hb : checksBeforeJwt env c with _ | e
  · rcases hj : jwtChecks env c with ⟨oj, c1⟩
    rcases oj with _ | e1
    · rcases ha : checksAfterJwt env c1 with _ | e2 <;> simp [hj, ha]
    · simp [hj]
  · simp

/-- The error of `Config.Validate` comes from the first section that
reports one, the later sections being skipped. -/
lemma goValidate_fst_cases (env : Env) (c : GConfig) :
    (goValidate env c).1 = checksBeforeJwt env c ∨
    (checksBeforeJwt env c = none ∧ (goValidate env c).1 = (jwtChecks env c).1) ∨
    (checksBeforeJwt env c = none ∧ (jwtChecks env c).1 = none ∧
      (goValidate env c).1 = checksAfterJwt env (jwtChecks env c).2) := by
  unfold goValidate
  rcases hb : checksBeforeJwt env c with _ | e
  · rcases hj : jwtChecks env c with ⟨oj, c1⟩
    rcases oj with _ | e1
    · rcases ha : checksAfterJwt env c1 with _ | e2 <;> simp [hj, ha]
    · simp [hj]
  · simp

/-- The post-state of `Config.Validate` is the original config when the
first section errors out, and the JWT section's post-state otherwise. -/
lemma goValidate_snd (env : Env) (c : GConfig) :
    (goValidate env c).2 =
      if checksBeforeJwt env c = none then (jwtChecks env c).2 else c := by
  unfold goValidate
  rcases hb : checksBeforeJwt env c with _ | e
  · rcases hj : jwtChecks env c with ⟨oj, c1⟩
    rcases oj with _ | e1
    · rcases ha : checksAfterJwt env c1 with _ | e2 <;> simp [hj, ha]
    · simp [hj]
  · simp

/-- The checks preceding the JWT section pass exactly when each of their
conditions is met. -/
lemma checksBeforeJwt_none_iff (env : Env) (c : GConfig) :
    checksBeforeJwt env c = none ↔
      (env.parseOK c.ReqURI = true ∧
       ¬(int64OfUint64 c.Conns > c.ReqTarget ∧ c.Duration = 0) ∧
       ¬(int64OfUint64 c.Conns > c.ReqTarget ∧ c.ReqTarget ≠ 0 ∧ c.Duration ≠ 0) ∧
       c.Conns ≠ 0 ∧ uriRegexMatch c.ReqURI = true ∧
       ¬(c.MTLSKey ≠ "" ∧ env.fileStat c.MTLSKey = .notExist) ∧
       ¬(c.MTLSKey ≠ "" ∧ env.fileStat c.MTLSKey = .otherErr) ∧
       ¬(c.MTLSCert ≠ "" ∧ env.fileStat c.MTLSCert = .notExist) ∧
       ¬(c.MTLSCert ≠ "" ∧ env.fileStat c.MTLSCert = .otherErr)) := by
  unfold checksBeforeJwt
  split_ifs <;> simp_all <;> tauto

set_option maxHeartbeats 1000000 in
/-- The connections-exceed-requests error is reported by the first
section exactly when the URI parses and one of the two connection-limit
conditions holds. -/
lemma checksBeforeJwt_connLimit_iff (env : Env) (c : GConfig) :
    checksBeforeJwt env c = some .connLimit ↔
      (env.parseOK c.ReqURI = true ∧
        ((int64OfUint64 c.Conns > c.ReqTarget ∧ c.Duration = 0) ∨
         (int64OfUint64 c.Conns > c.ReqTarget ∧ c.ReqTarget ≠ 0 ∧ c.Duration ≠ 0))) := by
  unfold checksBeforeJwt
  split_ifs <;> simp_all <;> tauto

/-- Every error of the first section is in `beforeErrs`. -/
lemma checksBeforeJwt_mem (env : Env) (c : GConfig) (e : VErr)
    (h : checksBeforeJwt env c = some e) : e ∈ beforeErrs := by
  unfold checksBeforeJwt at h
  split_ifs at h <;> simp_all [beforeErrs]

/-- Projection of the `JwtsFilename` block onto its error component. -/
lemma jwtFileCheck_fst (env : Env) (c : GConfig) :
    (jwtFileCheck env c).1 =
      if c.JwtsFilename ≠ "" then
        if env.fileStat c.JwtsFilename = .notExist then some .jwtFileNotExist
        else if env.fileStat c.JwtsFilename = .otherErr then some .jwtFileStatErr
        else if c.ReqTarget = 0 then some .jwtZeroReqs
        else none
      else none := by
  unfold jwtFileCheck
  split_ifs <;> rfl

/-- Projection of the JWT section onto its error component, with the
`SendJWT` mutation erased (the mutation changes no field the section's
own conditions read). -/
lemma jwtChecks_fst (env : Env) (c : GConfig) :
    (jwtChecks env c).1 =
      if (c.JwtsFilename ≠ "" ∨ c.JwtKey ≠ "") ∧ c.JwtHeader = "" then
        some VErr.emptyJwtHeader
      else if c.JwtHeader ≠ "" ∧ c.JwtsFilename = "" ∧ c.JwtKey = "" then
        some VErr.emptyJwtSource
      else if c.JwtKey ≠ "" then
        if env.fileStat c.JwtKey = .notExist then some VErr.jwtKeyNotExist
        else if env.fileStat c.JwtKey = .otherErr then some VErr.jwtKeyStatErr
        else if c.ReqTarget = 0 then some VErr.jwtZeroReqs
        else if c.JwtsFilename ≠ "" then
          if env.fileStat c.JwtsFilename = .notExist then some VErr.jwtFileNotExist
          else if env.fileStat c.JwtsFilename = .otherErr then some VErr.jwtFileStatErr
          else if c.ReqTarget = 0 then some VErr.jwtZeroReqs
          else none
        else none
      else
        if c.JwtsFilename ≠ "" then
          if env.fileStat c.JwtsFilename = .notExist then some VErr.jwtFileNotExist
          else if env.fileStat c.JwtsFilename = .otherErr then some VErr.jwtFileStatErr
          else if c.ReqTarget = 0 then some VErr.jwtZeroReqs
          else none
        else none := by
  unfold jwtChecks
  split_ifs <;> simp_all [jwtFileCheck_fst]

/-- Every error of the JWT section is in `tokenErrs`. -/
lemma jwtChecks_fst_mem (env : Env) (c : GConfig) (e : VErr)
    (h : (jwtChecks env c).1 = some e) : e ∈ tokenErrs := by
  rw [jwtChecks_fst] at h
  split_ifs at h <;> simp_all [tokenErrs]

/-- Every error of the final section is in `afterErrs`. -/
lemma checksAfterJwt_mem (env : Env) (c : GConfig) (e : VErr)
    (h : checksAfterJwt env c = some e) : e ∈ afterErrs := by
  unfold checksAfterJwt at h
  split_ifs at h <;> simp_all [afterErrs]

/-- An error outside the JWT and final sections' ranges is produced by
`Config.Validate` exactly when the first section produces it. -/
lemma goValidate_eq_before (env : Env) (c : GConfig) (e : VErr)
    (h1 : e ∉ tokenErrs) (h2 : e ∉ afterErrs) :
    (goValidate env c).1 = some e ↔ checksBeforeJwt env c = some e := by
  constructor
  · intro h
    rcases goValidate_fst_cases env c with hc | ⟨hb, hc⟩ | ⟨hb, hj, hc⟩
    · rw [← hc]; exact h
    · exact absurd (jwtChecks_fst_mem env c e (hc ▸ h)) h1
    · exact absurd (checksAfterJwt_mem env _ e (hc ▸ h)) h2
  · intro h
    simp [goValidate, h]

/-- The `JwtsFilename` block leaves the config unchanged except for
setting `SendJWT` when it runs through its guards. -/
lemma jwtFileCheck_snd (env : Env) (c : GConfig) :
    (jwtFileCheck env c).2 =
      if c.JwtsFilename ≠ "" ∧ env.fileStat c.JwtsFilename = .ok ∧ c.ReqTarget ≠ 0
      then { c with SendJWT := true } else c := by
  unfold jwtFileCheck
  rcases h : env.fileStat c.JwtsFilename with _ | _ | _ <;> split_ifs <;> simp_all

/-- Post-state of the JWT section: the config with `SendJWT` set when
one of the two token-source blocks runs through its guards, the
unchanged config otherwise. -/
lemma jwtChecks_snd (env : Env) (c : GConfig) :
    (jwtChecks env c).2 =
      if c.JwtHeader ≠ "" ∧
          ((c.JwtKey ≠ "" ∧ env.fileStat c.JwtKey = .ok ∧ c.ReqTarget ≠ 0) ∨
           (c.JwtKey = "" ∧ c.JwtsFilename ≠ "" ∧ env.fileStat c.JwtsFilename = .ok ∧
             c.ReqTarget ≠ 0))
      then { c with SendJWT := true } else c := by
  unfold jwtChecks
  by_cases h1 : (c.JwtsFilename ≠ "" ∨ c.JwtKey ≠ "") ∧ c.JwtHeader = ""
  · rw [if_pos h1, if_neg (by tauto)]
  · rw [if_neg h1]
    by_cases h2 : c.JwtHeader ≠ "" ∧ c.JwtsFilename = "" ∧ c.JwtKey = ""
    · rw [if_pos h2, if_neg (by tauto)]
    · rw [if_neg h2]
      by_cases h3 : c.JwtKey ≠ ""
      · rw [if_pos h3]
        have hhd : c.JwtHeader ≠ "" := fun hh => h1 ⟨Or.inr h3, hh⟩
        by_cases h4 : env.fileStat c.JwtKey = FStat.notExist
        · rw [if_pos h4, if_neg (by simp_all)]
        · rw [if_neg h4]
          by_cases h5 : env.fileStat c.JwtKey = FStat.otherErr
          · rw [if_pos h5, if_neg (by simp_all)]
          · rw [if_neg h5]
            have hok : env.fileStat c.JwtKey = FStat.ok := by
              cases hst : env.fileStat c.JwtKey <;> simp_all
            by_cases h6 : c.ReqTarget = 0
            · rw [if_pos h6, if_neg (by tauto)]
            · rw [if_neg h6, jwtFileCheck_snd,
                if_pos (show c.JwtHeader ≠ "" ∧ _ from ⟨hhd, Or.inl ⟨h3, hok, h6⟩⟩)]
              split_ifs <;> rfl
      · rw [if_neg h3, jwtFileCheck_snd]
        have hkey : c.JwtKey = "" := by tauto
        by_cases ha : c.JwtsFilename ≠ "" ∧ env.fileStat c.JwtsFilename = FStat.ok ∧
          c.ReqTarget ≠ 0
        · have hhd : c.JwtHeader ≠ "" := fun hh => h1 ⟨Or.inl ha.1, hh⟩
          rw [if_pos ha, if_pos ⟨hhd, Or.inr ⟨hkey, ha.1, ha.2.1, ha.2.2⟩⟩]
        · rw [if_neg ha, if_neg (by tauto)]

/-- The JWT section preserves every field involved in the later checks
(it can only set `SendJWT`). -/
lemma jwtChecks_preserves (env : Env) (c : GConfig) :
    (jwtChecks env c).2.ReadTimeout = c.ReadTimeout ∧
    (jwtChecks env c).2.WriteTimeout = c.WriteTimeout ∧
    (jwtChecks env c).2.VerboseTicker = c.VerboseTicker ∧
    (jwtChecks env c).2.ReqTarget = c.ReqTarget ∧
    (jwtChecks env c).2.Duration = c.Duration := by
  rw [jwtChecks_snd]
  split_ifs <;> exact ⟨rfl, rfl, rfl, rfl, rfl⟩

/-- When the final section reports no error, the ticker, the timeouts
and the budget pair are all nonzero. -/
lemma checksAfterJwt_none (env : Env) (c : GConfig)
    (h : checksAfterJwt env c = none) :
    c.VerboseTicker ≠ 0 ∧ c.WriteTimeout ≠ 0 ∧ c.ReadTimeout ≠ 0 ∧
      ¬(c.ReqTarget = 0 ∧ c.Duration = 0) := by
  unfold checksAfterJwt at h
  split_ifs at h <;> simp_all

/-- When the JWT section reports no error, the token rules hold: a
configured source comes with a header, a header comes with a source, and
a configured source comes with a nonzero request target. -/
lemma jwtChecks_fst_none (env : Env) (c : GConfig)
    (h : (jwtChecks env c).1 = none) :
    ¬((c.JwtsFilename ≠ "" ∨ c.JwtKey ≠ "") ∧ c.JwtHeader = "") ∧
    ¬(c.JwtHeader ≠ "" ∧ c.JwtsFilename = "" ∧ c.JwtKey = "") ∧
    ((c.JwtsFilename ≠ "" ∨ c.JwtKey ≠ "") → c.ReqTarget ≠ 0) := by
  rw [jwtChecks_fst] at h
  split_ifs at h <;> simp_all <;> tauto

/-- When the token header is present, the request target nonzero, and
every configured token source's file opens, the JWT section reports no
error. -/
lemma jwtChecks_fst_none_of (env : Env) (c : GConfig)
    (hs : c.JwtsFilename ≠ "" ∨ c.JwtKey ≠ "")
    (hh : c.JwtHeader ≠ "") (hr : c.ReqTarget ≠ 0)
    (hk : c.JwtKey ≠ "" → env.fileStat c.JwtKey = FStat.ok)
    (hf : c.JwtsFilename ≠ "" → env.fileStat c.JwtsFilename = FStat.ok) :
    (jwtChecks env c).1 = none := by
  rw [jwtChecks_fst]
  split_ifs <;> simp_all

/-- An error of the first section is never a token-rule error. -/
lemma beforeErrs_not_token : ∀ e ∈ beforeErrs, e ∉ tokenErrs := by decide

/-- An error of the final section is never a token-rule error. -/
lemma afterErrs_not_token : ∀ e ∈ afterErrs, e ∉ tokenErrs := by decide

/-- Below `2 ^ 63`, the Go `int64(uint)` conversion is the identity. -/
lemma int64OfUint64_of_lt (n : Nat) (h : n < 2 ^ 63) :
    int64OfUint64 n = (n : Int) := by
  unfold int64OfUint64
  have h64 : n % 2 ^ 64 = n := Nat.mod_eq_of_lt (by omega)
  simp only [h64]
  rw [if_pos h]

/-- Claim C1 (counterexample): the claim asserts that a single worker
with `Config.Reqs = R` issues exactly `R` requests for any `Verbose`
setting; in fact with `Verbose = true` and `Reqs = 1`, no errors and no
cancellation, the worker completes 2 requests, because the verbose loop
falls through into the non-verbose loop. -/
theorem fixedReqs_verbose_counterexample :
    (workerFixedReqsRun { wBase with Verbose := true, Reqs := 1 }
      (fun _ => false) (fun _ => true) 0).completed = 2 := by decide

/-- Claim C1 (amended): for a FixedReqs dispatch in which no transport
errors occur, the cancellation context is never done, and `Verbose` is
unset, each worker completes exactly its share of the budget, so the sum
over workers of completed requests equals the sum of the shares (in
particular it equals `R` when the shares partition `R`). -/
theorem fixedReqs_conservation (done succ : Nat → Bool)
    (hdone : ∀ t, done t = false) (hsucc : ∀ t, succ t = true)
    (cs : List WConfig) (hv : ∀ c ∈ cs, c.Verbose = false) :
    (cs.map (fun c => (workerFixedReqsRun c done succ 0).completed)).sum
      = (cs.map (fun c => c.Reqs.toNat)).sum := by
  induction cs with
  | nil => simp
  | cons c cs ih =>
    have hv' : c.Verbose = false := hv c (by simp)
    have hc := (runLoop_all_success done succ hdone hsucc c.Reqs.toNat 0).1
    simp only [List.map_cons, List.sum_cons,
      workerFixedReqsRun_nonverbose c hv' done succ 0, hc]
    exact congrArg (c.Reqs.toNat + ·) (ih (fun x hx => hv x (by simp [hx])))

/-- Claim C1 (witness): two non-verbose workers with shares 3 and 2,
no errors and no cancellation, complete 5 requests in total. -/
theorem fixedReqs_conservation_witness :
    (([{ wBase with Reqs := 3 }, { wBase with Reqs := 2 }] : List WConfig).map
      (fun c => (workerFixedReqsRun c (fun _ => false) (fun _ => true) 0).completed)).sum
      = 5 := by
  have h := fixedReqs_conservation (fun _ => false) (fun _ => true)
    (fun _ => rfl) (fun _ => rfl)
    [{ wBase with Reqs := 3 }, { wBase with Reqs := 2 }] (by decide)
  exact h.trans (by decide)

/-- Claim C2 (counterexample): the claim asserts that `Verbose = true`
issues exactly the same number of requests and the same completed count
as `Verbose = false`; in fact with `Reqs = 2`, no errors and no
cancellation, the verbose worker completes 4 requests while the
non-verbose worker completes 2. -/
theorem verbose_changes_totals_counterexample :
    (workerFixedReqsRun { wBase with Verbose := true, Reqs := 2 }
      (fun _ => false) (fun _ => true) 0).completed = 4 ∧
    (workerFixedReqsRun { wBase with Verbose := false, Reqs := 2 }
      (fun _ => false) (fun _ => true) 0).completed = 2 := by decide

/-- Claim C2 (amended): the verbose branch of `WorkerFixedReqs.Run` is
not dead code: absent cancellation, a worker with `Verbose = true` runs
the request loop twice over, issuing exactly twice as many requests
(completed plus failed) as the same worker with `Verbose = false`. -/
theorem verbose_doubles_requests (c : WConfig) (done succ : Nat → Bool) (t0 : Nat)
    (hdone : ∀ t, done t = false) :
    (workerFixedReqsRun { c with Verbose := true } done succ t0).completed +
      (workerFixedReqsRun { c with Verbose := true } done succ t0).failed =
    2 * ((workerFixedReqsRun { c with Verbose := false } done succ t0).completed +
      (workerFixedReqsRun { c with Verbose := false } done succ t0).failed) := by
  obtain ⟨h1c, h1s, h1n⟩ := runLoop_spec done succ hdone c.Reqs.toNat t0
  obtain ⟨h2c, h2s, h2n⟩ := runLoop_spec done succ hdone c.Reqs.toNat
    (runLoop done succ t0 c.Reqs.toNat).next
  simp only [workerFixedReqsRun, if_true, if_false, h1c, Bool.false_eq_true, ite_false,
    ite_true]
  omega

/-- Claim C2 (witness): at `wBase` (five requests), all sends succeeding
and no cancellation, the verbose worker issues twice as many requests as
the non-verbose one. -/
theorem verbose_doubles_requests_witness :
    (workerFixedReqsRun { wBase with Verbose := true } (fun _ => false) (fun _ => true) 0).completed +
      (workerFixedReqsRun { wBase with Verbose := true } (fun _ => false) (fun _ => true) 0).failed =
    2 * ((workerFixedReqsRun { wBase with Verbose := false } (fun _ => false) (fun _ => true) 0).completed +
      (workerFixedReqsRun { wBase with Verbose := false } (fun _ => false) (fun _ => true) 0).failed) :=
  verbose_doubles_requests wBase (fun _ => false) (fun _ => true) 0 (fun _ => rfl)

/-- Claim C3: for a parsing URI, a nonnegative request budget and
duration, and a connection count below `2 ^ 63`, `Config.Validate`
returns the connections-exceed-requests error exactly when `C > R` and
`D = 0`, or `C > R`, `R > 0` and `D > 0`; a pure FixedTime configuration
(`D > 0`, `R = 0`) is never rejected on this ground; and `C = 0` always
fails validation. -/
theorem validate_connLimit_iff (env : Env) (c : GConfig)
    (hp : env.parseOK c.ReqURI = true) (hR : 0 ≤ c.ReqTarget) (hD : 0 ≤ c.Duration)
    (hC : c.Conns < 2 ^ 63) :
    ((goValidate env c).1 = some VErr.connLimit ↔
      (((c.Conns : Int) > c.ReqTarget ∧ c.Duration = 0) ∨
       ((c.Conns : Int) > c.ReqTarget ∧ 0 < c.ReqTarget ∧ 0 < c.Duration))) ∧
    (0 < c.Duration ∧ c.ReqTarget = 0 → (goValidate env c).1 ≠ some VErr.connLimit) ∧
    (∀ (env2 : Env) (c2 : GConfig), c2.Conns = 0 →
      (goValidate env2 c2).1.isSome = true) := by
  have hmain : (goValidate env c).1 = some VErr.connLimit ↔
      (((c.Conns : Int) > c.ReqTarget ∧ c.Duration = 0) ∨
       ((c.Conns : Int) > c.ReqTarget ∧ 0 < c.ReqTarget ∧ 0 < c.Duration)) := by
    rw [goValidate_eq_before env c VErr.connLimit (by decide) (by decide),
      checksBeforeJwt_connLimit_iff, int64OfUint64_of_lt c.Conns hC]
    constructor
    · rintro ⟨-, (⟨ha, hb⟩ | ⟨ha, hb, hc2⟩)⟩
      · exact Or.inl ⟨ha, hb⟩
      · exact Or.inr ⟨ha, by omega, by omega⟩
    · rintro (⟨ha, hb⟩ | ⟨ha, hb, hc2⟩)
      · exact ⟨hp, Or.inl ⟨ha, hb⟩⟩
      · exact ⟨hp, Or.inr ⟨ha, by omega, by omega⟩⟩
  refine ⟨hmain, ?_, ?_⟩
  · rintro ⟨hd, hr⟩ hcl
    rcases hmain.mp hcl with ⟨-, h0⟩ | ⟨-, h1, -⟩ <;> omega
  · intro env2 c2 h0
    rcases hgv : (goValidate env2 c2).1 with _ | e
    · have hzc := ((checksBeforeJwt_none_iff env2 c2).mp
        ((goValidate_fst_none env2 c2).mp hgv).1).2.2.2.1
      exact absurd h0 hzc
    · simp [hgv]

/-- Claim C3 (witness): two connections against a budget of one request
and no duration are rejected with the connections-exceed-requests
error. -/
theorem validate_connLimit_iff_witness :
    (goValidate envAll { cBase with Conns := 2, ReqTarget := 1 }).1
      = some VErr.connLimit := by
  have h := validate_connLimit_iff envAll { cBase with Conns := 2, ReqTarget := 1 }
    rfl (by decide) (by decide) (by decide)
  exact h.1.mpr (Or.inl (by decide))

/-- Claim C4 (counterexample): the claim asserts that validation accepts
any URI matching the specification pattern with an optional port; in
fact `http://example.com/path` matches the specification pattern and
parses, yet `Config.Validate` rejects it with the URI-format error,
because the source regex demands an explicit `:digits` port. -/
theorem validate_uri_counterexample :
    specURIPattern "http://example.com/path" = true ∧
    envAll.parseOK "http://example.com/path" = true ∧
    (goValidate envAll
      { cBase with ReqURI := "http://example.com/path", ReqTarget := 1 }).1
      = some VErr.badURIFormat := by
  exact ⟨by decide, rfl, by decide⟩

/-- Claim C4 (amended): `Config.Validate` reports the invalid-URI error
exactly when `url.ParseRequestURI` fails, and — once the URI parses and
the connection checks pass — reports the URI-format error exactly when
the URI fails the source regex `https?:\/\/(.)*(?::\d+)` (unanchored,
with a mandatory `:digits` group), so an http URI without an explicit
port is rejected. -/
theorem validate_uri_errors_iff (env : Env) (c : GConfig) :
    ((goValidate env c).1 = some VErr.invalidURI ↔ env.parseOK c.ReqURI = false) ∧
    (env.parseOK c.ReqURI = true →
      ¬(int64OfUint64 c.Conns > c.ReqTarget ∧ c.Duration = 0) →
      ¬(int64OfUint64 c.Conns > c.ReqTarget ∧ c.ReqTarget ≠ 0 ∧ c.Duration ≠ 0) →
      c.Conns ≠ 0 →
      ((goValidate env c).1 = some VErr.badURIFormat ↔
        uriRegexMatch c.ReqURI = false)) := by
  constructor
  · rw [goValidate_eq_before env c VErr.invalidURI (by decide) (by decide)]
    unfold checksBeforeJwt
    split_ifs <;> simp_all
  · intro hp h1 h2 h3
    rw [goValidate_eq_before env c VErr.badURIFormat (by decide) (by decide)]
    unfold checksBeforeJwt
    split_ifs <;> simp_all

/-- Claim C4 (amended, witness): at the counterexample config the format
error is reported because the regex does not match. -/
theorem validate_uri_errors_iff_witness :
    (goValidate envAll
      { cBase with ReqURI := "http://example.com/path", ReqTarget := 1 }).1
      = some VErr.badURIFormat := by
  have h := validate_uri_errors_iff envAll
    { cBase with ReqURI := "http://example.com/path", ReqTarget := 1 }
  exact (h.2 rfl (by decide) (by decide) (by decide)).mpr (by decide)

/-- Claim C6 (counterexample): the claim asserts that a zero
verbose-tick interval is rejected only when the verbose flag is set; in
fact the check is unconditional: a non-verbose config satisfying every
other rule is rejected with the zero-ticker error. -/
theorem validate_ticker_counterexample :
    ({ cBase with VerboseTicker := 0 } : GConfig).Verbose = false ∧
    (goValidate envAll { cBase with VerboseTicker := 0 }).1
      = some VErr.zeroTicker := by
  exact ⟨rfl, by decide⟩

/-- Claim C6 (amended): `Config.Validate` fails for every config with a
zero read timeout, for every config with a zero write timeout, and for
every config with a zero verbose-tick interval, regardless of the
verbose flag. -/
theorem validate_zero_timeouts_ticker (env : Env) (c : GConfig) :
    (c.ReadTimeout = 0 → (goValidate env c).1.isSome = true) ∧
    (c.WriteTimeout = 0 → (goValidate env c).1.isSome = true) ∧
    (c.VerboseTicker = 0 → (goValidate env c).1.isSome = true) := by
  have key : (goValidate env c).1 = none →
      c.ReadTimeout ≠ 0 ∧ c.WriteTimeout ≠ 0 ∧ c.VerboseTicker ≠ 0 := by
    intro h
    obtain ⟨-, -, ha⟩ := (goValidate_fst_none env c).mp h
    obtain ⟨ht, hw, hr, -⟩ := checksAfterJwt_none env _ ha
    obtain ⟨p1, p2, p3, -, -⟩ := jwtChecks_preserves env c
    exact ⟨by rw [← p1]; exact hr, by rw [← p2]; exact hw, by rw [← p3]; exact ht⟩
  refine ⟨?_, ?_, ?_⟩ <;> intro h0
  · rcases hgv : (goValidate env c).1 with _ | e
    · exact absurd h0 (key hgv).1
    · simp [hgv]
  · rcases hgv : (goValidate env c).1 with _ | e
    · exact absurd h0 (key hgv).2.1
    · simp [hgv]
  · rcases hgv : (goValidate env c).1 with _ | e
    · exact absurd h0 (key hgv).2.2
    · simp [hgv]

/-- Claim C6 (witness): a config with zero read timeout fails
validation. -/
theorem validate_zero_timeouts_ticker_witness :
    (goValidate envAll { cBase with ReadTimeout := 0 }).1.isSome = true :=
  (validate_zero_timeouts_ticker envAll { cBase with ReadTimeout := 0 }).1 rfl

/-- Claim C7: `Config.Validate` fails whenever a token source (JWT key
or JWTs file) is configured but the token header is empty, whenever the
token header is set but no token source is configured, and whenever a
token source is configured with a zero request target; and when a token
source is configured with the header set, a nonzero target, and every
configured source file opening, no token-rule error is reported. -/
theorem validate_jwt_rules (env : Env) (c : GConfig) :
    (((c.JwtsFilename ≠ "" ∨ c.JwtKey ≠ "") ∧ c.JwtHeader = "") →
      (goValidate env c).1.isSome = true) ∧
    ((c.JwtHeader ≠ "" ∧ c.JwtsFilename = "" ∧ c.JwtKey = "") →
      (goValidate env c).1.isSome = true) ∧
    (((c.JwtsFilename ≠ "" ∨ c.JwtKey ≠ "") ∧ c.ReqTarget = 0) →
      (goValidate env c).1.isSome = true) ∧
    (((c.JwtsFilename ≠ "" ∨ c.JwtKey ≠ "") ∧ c.JwtHeader ≠ "" ∧ c.ReqTarget ≠ 0 ∧
      (c.JwtKey ≠ "" → env.fileStat c.JwtKey = FStat.ok) ∧
      (c.JwtsFilename ≠ "" → env.fileStat c.JwtsFilename = FStat.ok)) →
      ∀ e, (goValidate env c).1 = some e → e ∉ tokenErrs) := by
  refine ⟨?_, ?_, ?_, ?_⟩
  · intro h
    rcases hgv : (goValidate env c).1 with _ | e
    · obtain ⟨hj, -, -⟩ :=
        jwtChecks_fst_none env c ((goValidate_fst_none env c).mp hgv).2.1
      exact absurd h hj
    · simp [hgv]
  · intro h
    rcases hgv : (goValidate env c).1 with _ | e
    · obtain ⟨-, hj, -⟩ :=
        jwtChecks_fst_none env c ((goValidate_fst_none env c).mp hgv).2.1
      exact absurd h hj
    · simp [hgv]
  · intro h
    rcases hgv : (goValidate env c).1 with _ | e
    · obtain ⟨-, -, hj⟩ :=
        jwtChecks_fst_none env c ((goValidate_fst_none env c).mp hgv).2.1
      exact absurd h.2 (hj h.1)
    · simp [hgv]
  · rintro ⟨hs, hh, hr, hk, hf⟩ e he
    have hjnone := jwtChecks_fst_none_of env c hs hh hr hk hf
    rcases goValidate_fst_cases env c with hc | ⟨hb, hc⟩ | ⟨hb, hj, hc⟩
    · exact beforeErrs_not_token e
        (checksBeforeJwt_mem env c e (by rw [← hc]; exact he))
    · rw [hc, hjnone] at he
      exact Option.noConfusion he
    · exact afterErrs_not_token e
        (checksAfterJwt_mem env _ e (by rw [← hc]; exact he))

/-- Claim C7 (witness): a JWT key with an empty token header fails
validation. -/
theorem validate_jwt_rules_witness :
    (goValidate envAll { cBase with JwtKey := "k" }).1.isSome = true :=
  (validate_jwt_rules envAll { cBase with JwtKey := "k" }).1 ⟨Or.inr (by decide), rfl⟩

/-- Claim C9: `Config.Validate` modifies no field of the config except
`SendJWT`: its post-state is the input config with `SendJWT` set exactly
when the run reaches a `SendJWT = true` assignment — all checks before
the JWT section pass, the token header is set, and one of the two
token-source blocks runs through its guards with a nonzero request
target. -/
theorem validate_frame_sendJWT (env : Env) (c : GConfig) :
    (goValidate env c).2 =
      if setsSendJWT env c then { c with SendJWT := true } else c := by
  rw [goValidate_snd, jwtChecks_snd]
  unfold setsSendJWT
  by_cases hb : checksBeforeJwt env c = none
  · rw [if_pos hb]
    by_cases hc2 : c.JwtHeader ≠ "" ∧
        ((c.JwtKey ≠ "" ∧ env.fileStat c.JwtKey = FStat.ok ∧ c.ReqTarget ≠ 0) ∨
         (c.JwtKey = "" ∧ c.JwtsFilename ≠ "" ∧
           env.fileStat c.JwtsFilename = FStat.ok ∧ c.ReqTarget ≠ 0))
    · rw [if_pos hc2, if_pos ⟨hb, hc2.1, hc2.2⟩]
    · rw [if_neg hc2, if_neg (fun hq => hc2 ⟨hq.2.1, hq.2.2⟩)]
  · rw [if_neg hb, if_neg (fun hq => hb hq.1)]

/-- Claim C9 (witness): at a config with a JWT key, a token header and a
nonzero target, validation returns the config with only `SendJWT`
flipped to true. -/
theorem validate_frame_sendJWT_witness :
    (goValidate envAll
      { cBase with JwtKey := "k", JwtHeader := "h", ReqTarget := 1 }).2
      = { cBase with JwtKey := "k", JwtHeader := "h", ReqTarget := 1, SendJWT := true } := by
  rw [validate_frame_sendJWT envAll
    { cBase with JwtKey := "k", JwtHeader := "h", ReqTarget := 1 },
    if_pos (by decide)]

/-- Claim C5: when `NewWorker` returns a worker, the variant is derived
from the termination mode — `WorkerFixedReqs` for `D = 0` and `R > 0`,
`WorkerFixedTime` for `D > 0` and `R = 0`, `WorkerFixedTimeRequests`
when both are positive — and the remaining case `R = 0 ∧ D = 0` is
rejected by `Config.Validate`. -/
theorem newWorker_mode (env : Env) (ps : Pools) (c : WConfig) (w : WorkerKind)
    (h : (newWorkerStep env ps c).2 = Except.ok w) :
    (c.Until = 0 ∧ 0 < c.Reqs → w = WorkerKind.fixedReqs) ∧
    (0 < c.Until ∧ c.Reqs = 0 → w = WorkerKind.fixedTime) ∧
    (0 < c.Until ∧ 0 < c.Reqs → w = WorkerKind.fixedTimeRequests) ∧
    (∀ (env2 : Env) (c2 : GConfig), c2.ReqTarget = 0 → c2.Duration = 0 →
      (goValidate env2 c2).1.isSome = true) := by
  unfold newWorkerStep at h
  rcases hg : getClient env c with e | cl <;> rw [hg] at h
  · exact absurd h (by simp)
  · refine ⟨?_, ?_, ?_, ?_⟩
    · rintro ⟨hu, hr⟩
      have ht : c.TimeLimited = false := by simp [WConfig.TimeLimited, hu]
      rw [if_pos ht] at h
      simpa using h.symm
    · rintro ⟨hu, hr⟩
      have ht : ¬(c.TimeLimited = false) := by
        simp [WConfig.TimeLimited]
        omega
      have hun : c.UnlimitedReqs = true := by
        simp [WConfig.UnlimitedReqs, hr]
        omega
      rw [if_neg ht, if_pos hun] at h
      simpa using h.symm
    · rintro ⟨hu, hr⟩
      have ht : ¬(c.TimeLimited = false) := by
        simp [WConfig.TimeLimited]
        omega
      have hun : ¬(c.UnlimitedReqs = true) := by
        simp [WConfig.UnlimitedReqs]
        omega
      rw [if_neg ht, if_neg hun] at h
      simpa using h.symm
    · intro env2 c2 h0 hd
      rcases hgv : (goValidate env2 c2).1 with _ | e
      · obtain ⟨-, -, ha⟩ := (goValidate_fst_none env2 c2).mp hgv
        obtain ⟨-, -, -, hz⟩ := checksAfterJwt_none env2 _ ha
        obtain ⟨-, -, -, p4, p5⟩ := jwtChecks_preserves env2 c2
        exact absurd ⟨by rw [p4]; exact h0, by rw [p5]; exact hd⟩ hz
      · simp [hgv]

/-- Claim C5 (witness): `wBase` (no duration, five requests) yields a
fixed-requests worker, and the all-zero budget config fails
validation. -/
theorem newWorker_mode_witness :
    WorkerKind.fixedReqs = WorkerKind.fixedReqs ∧
    (goValidate envAll { cBase with ReqTarget := 0, Duration := 0 }).1.isSome
      = true := by
  have h := newWorker_mode envAll ⟨false, none⟩ wBase WorkerKind.fixedReqs rfl
  exact ⟨h.1 ⟨rfl, by decide⟩,
    h.2.2.2 envAll { cBase with ReqTarget := 0, Duration := 0 } rfl rfl⟩

/-- A later `NewWorker` call never replaces an already-initialized
request-pool template. -/
lemma newWorkerStep_request_mono (env : Env) (ps : Pools) (c : WConfig)
    (t : Template) (h : ps.request = some t) :
    ((newWorkerStep env ps c).1).request = some t := by
  unfold newWorkerStep
  rcases hg : getClient env c with e | cl <;> simp only [hg]
  · exact h
  · split_ifs <;> simp [h]

/-- Folding `NewWorker` over any list of configs preserves an
already-initialized request-pool template. -/
lemma foldl_request_mono (env : Env) (t : Template) :
    ∀ (cs : List WConfig) (ps : Pools), ps.request = some t →
      (cs.foldl (fun ps c => (newWorkerStep env ps c).1) ps).request = some t := by
  intro cs
  induction cs with
  | nil => exact fun ps h => h
  | cons c cs ih =>
    exact fun ps h => ih _ (newWorkerStep_request_mono env ps c t h)

/-- Claim C8: the package-level request pool is initialized at most
once: after a first `NewWorker` call that succeeds in building a client,
every further call — with any config, including different `ReqURI`,
`Method` or `DisableKeepAlive` — leaves the pooled request template
exactly the one captured from the first call's config. -/
theorem requestPool_initialized_once (env : Env) (c0 : WConfig)
    (cs : List WConfig) (h : ∃ cl, getClient env c0 = Except.ok cl) :
    (cs.foldl (fun ps c => (newWorkerStep env ps c).1)
      ((newWorkerStep env ⟨false, none⟩ c0).1)).request
      = some (templateOf c0) := by
  obtain ⟨cl, hcl⟩ := h
  have h0 : ((newWorkerStep env ⟨false, none⟩ c0).1).request
      = some (templateOf c0) := by
    unfold newWorkerStep
    simp only [hcl]
    split_ifs <;> rfl
  exact foldl_request_mono env (templateOf c0) cs _ h0

/-- Claim C8 (witness): after a first call at `wBase`, a second call
with a different URI, method and keep-alive flag leaves the template
captured from `wBase`. -/
theorem requestPool_initialized_once_witness :
    (([{ wBase with ReqURI := "http://other:1/y", Method := "POST", DisableKeepAlive := true }] : List WConfig).foldl
      (fun ps c => (newWorkerStep envAll ps c).1)
      ((newWorkerStep envAll ⟨false, none⟩ wBase).1)).request
      = some (templateOf wBase) :=
  requestPool_initialized_once envAll wBase
    [{ wBase with ReqURI := "http://other:1/y", Method := "POST", DisableKeepAlive := true }] ⟨_, rfl⟩

/-- Claim C10: a client TLS certificate is attached iff both mTLS paths
are non-empty: with exactly one of them set, `getClient` (given a
parsing URI and, if HTTP/2 is requested, a succeeding configure call)
and `GetNetHTTPClient` both succeed with no client certificate, and any
client `getClient` returns carries a certificate exactly when both paths
are non-empty. -/
theorem client_cert_iff_both_paths (env : Env) (wc : WConfig) (hc : HConfig)
    (hw : (wc.MTLSCert = "" ∧ wc.MTLSKey ≠ "") ∨ (wc.MTLSCert ≠ "" ∧ wc.MTLSKey = ""))
    (hh : (hc.MTLSCert = "" ∧ hc.MTLSKey ≠ "") ∨ (hc.MTLSCert ≠ "" ∧ hc.MTLSKey = ""))
    (hp : env.parseOK wc.ReqURI = true)
    (h2 : wc.HTTPV2 = true → env.http2OK = true) :
    (∃ cl, getClient env wc = Except.ok cl ∧ cl.hasClientCert = false) ∧
    (∃ ncl, getNetHTTPClient env hc = Except.ok ncl ∧ ncl.hasClientCert = false) ∧
    (∀ (wc2 : WConfig) (cl : HostClient), getClient env wc2 = Except.ok cl →
      (cl.hasClientCert = true ↔ (wc2.MTLSCert ≠ "" ∧ wc2.MTLSKey ≠ ""))) := by
  refine ⟨?_, ?_, ?_⟩
  · have hno : ¬(wc.MTLSCert ≠ "" ∧ wc.MTLSKey ≠ "" ∧
        env.loadKeyPairOK wc.MTLSCert wc.MTLSKey = false) := by tauto
    unfold getClient
    rw [if_neg hno, if_neg (by simp [hp])]
    by_cases hv : wc.HTTPV2 = false
    · rw [if_pos hv]
      refine ⟨builtClient env wc, rfl, ?_⟩
      simp only [builtClient, decide_eq_false_iff_not]
      tauto
    · rw [if_neg hv, if_pos (h2 (by revert hv; cases wc.HTTPV2 <;> simp))]
      refine ⟨_, rfl, ?_⟩
      simp only [builtClient, decide_eq_false_iff_not]
      tauto
  · have hno : ¬(hc.MTLSCert ≠ "" ∧ hc.MTLSKey ≠ "" ∧
        env.loadKeyPairOK hc.MTLSCert hc.MTLSKey = false) := by tauto
    unfold getNetHTTPClient
    rw [if_neg hno]
    refine ⟨_, rfl, ?_⟩
    simp only [decide_eq_false_iff_not]
    tauto
  · intro wc2 cl hcl
    unfold getClient at hcl
    split_ifs at hcl
    · obtain rfl : builtClient env wc2 = cl := Except.ok.inj hcl
      simp [builtClient]
    · obtain rfl : { builtClient env wc2 with http2Configured := true } = cl :=
        Except.ok.inj hcl
      simp [builtClient]

/-- Claim C10 (witness): a config with only the certificate path set and
a config with only the key path set both yield clients without a client
certificate. -/
theorem client_cert_iff_both_paths_witness :
    (∃ cl, getClient envAll { wBase with MTLSCert := "cert.pem" } = Except.ok cl ∧
      cl.hasClientCert = false) ∧
    (∃ ncl, getNetHTTPClient envAll
      { SkipVerify := false, MTLSCert := "", MTLSKey := "key.pem",
        ReadTimeout := 1, WriteTimeout := 1 } = Except.ok ncl ∧
      ncl.hasClientCert = false) := by
  have h := client_cert_iff_both_paths envAll { wBase with MTLSCert := "cert.pem" }
    { SkipVerify := false, MTLSCert := "", MTLSKey := "key.pem",
      ReadTimeout := 1, WriteTimeout := 1 }
    (Or.inr ⟨by decide, rfl⟩) (Or.inl ⟨rfl, by decide⟩) rfl (fun hv => rfl)
  exact ⟨h.1, h.2.1⟩

end Gopayloader
